import Mathlib

/-!
Verification development for the `tsp_prob` last-mile dispatch system.

The Python sources are shallowly embedded: every external effect (HTTP call
to the Kakao geocoder, the Valhalla routing engine, the LKH TSP adapter, and
every MySQL statement) is made explicit, either as a function parameter (the
observed response of one concrete call) or as explicit state passing (the
parcel table as a list of rows).  Python strings are embedded as `List Char`
so that all computations reduce inside the kernel; Python floats that only
flow through the code unchanged (coordinates, speeds, times) are embedded as
rationals.
-/

/-- Embedding of a Python `str`: a list of characters. -/
abbrev PyStr := List Char

/-- Convenience conversion from a Lean string literal to `PyStr`. -/
def pstr (s : String) : PyStr := s.toList

/-- Embedding of the Python substring test `sub in s`. -/
def pyContains (s sub : PyStr) : Bool := decide (sub <:+: s)

/-- Embedding of Python `s.endswith(t)` (suffix test). -/
def pyEndsWith (s t : PyStr) : Bool := decide (t <:+ s)

/-- Embedding of Python `s.split()` (split on whitespace, dropping empty
parts); the sources only ever split address strings on spaces. -/
def pySplit (s : PyStr) : List PyStr :=
  (s.splitOn ' ').filter (· ≠ [])

/-- Truthiness of an optional integer field, as Python evaluates
`parcel.get('pickupDriverId')` in a boolean context: `None` and `0` are
falsy, every other value is truthy. -/
def pyTruthy : Option Nat → Bool
  | none => false
  | some n => n ≠ 0

/-- `DISTRICT_DRIVER_MAPPING` of `main_service.py` (lines 50-67): the 25
Seoul districts grouped into the five pickup-driver zones. -/
def DISTRICT_DRIVER_MAPPING : List (PyStr × Nat) :=
  [ (pstr "은평구", 1), (pstr "서대문구", 1), (pstr "마포구", 1),
    (pstr "도봉구", 2), (pstr "노원구", 2), (pstr "강북구", 2), (pstr "성북구", 2),
    (pstr "종로구", 3), (pstr "중구", 3), (pstr "용산구", 3),
    (pstr "강서구", 4), (pstr "양천구", 4), (pstr "구로구", 4), (pstr "영등포구", 4),
    (pstr "동작구", 4), (pstr "관악구", 4), (pstr "금천구", 4),
    (pstr "성동구", 5), (pstr "광진구", 5), (pstr "동대문구", 5), (pstr "중랑구", 5),
    (pstr "강동구", 5), (pstr "송파구", 5), (pstr "강남구", 5), (pstr "서초구", 5) ]

/-- The `district_coords` table of `get_default_coordinates_by_district`
(`main_service.py` lines 417-443; the identical table also appears in
`delivery_service.py` and `traffic_proxy.py`), in source order: district
name, latitude, longitude, display name. -/
def district_coords : List (PyStr × ℚ × ℚ × PyStr) :=
  [ (pstr "강남구", 37.5172, 127.0473, pstr "강남구 역삼동"),
    (pstr "서초구", 37.4837, 127.0324, pstr "서초구 서초동"),
    (pstr "송파구", 37.5145, 127.1059, pstr "송파구 잠실동"),
    (pstr "강동구", 37.5301, 127.1238, pstr "강동구 천호동"),
    (pstr "성동구", 37.5634, 127.0369, pstr "성동구 성수동"),
    (pstr "광진구", 37.5384, 127.0822, pstr "광진구 광장동"),
    (pstr "동대문구", 37.5744, 127.0396, pstr "동대문구 전농동"),
    (pstr "중랑구", 37.6063, 127.0927, pstr "중랑구 면목동"),
    (pstr "종로구", 37.5735, 126.9790, pstr "종로구 종로"),
    (pstr "중구", 37.5641, 126.9979, pstr "중구 명동"),
    (pstr "용산구", 37.5311, 126.9810, pstr "용산구 한강로"),
    (pstr "성북구", 37.5894, 127.0167, pstr "성북구 성북동"),
    (pstr "강북구", 37.6396, 127.0253, pstr "강북구 번동"),
    (pstr "도봉구", 37.6687, 127.0472, pstr "도봉구 방학동"),
    (pstr "노원구", 37.6543, 127.0568, pstr "노원구 상계동"),
    (pstr "은평구", 37.6176, 126.9269, pstr "은평구 불광동"),
    (pstr "서대문구", 37.5791, 126.9368, pstr "서대문구 신촌동"),
    (pstr "마포구", 37.5638, 126.9084, pstr "마포구 공덕동"),
    (pstr "양천구", 37.5170, 126.8667, pstr "양천구 목동"),
    (pstr "강서구", 37.5509, 126.8496, pstr "강서구 화곡동"),
    (pstr "구로구", 37.4954, 126.8877, pstr "구로구 구로동"),
    (pstr "금천구", 37.4564, 126.8955, pstr "금천구 가산동"),
    (pstr "영등포구", 37.5263, 126.8966, pstr "영등포구 영등포동"),
    (pstr "동작구", 37.5124, 126.9393, pstr "동작구 상도동"),
    (pstr "관악구", 37.4784, 126.9516, pstr "관악구 봉천동") ]

/-- `get_default_coordinates_by_district` (`main_service.py` lines 415-452):
scan the district table in insertion order and return the first district
whose name occurs as a substring of the address; otherwise the Seoul City
Hall coordinates. -/
def get_default_coordinates_by_district (address : PyStr) : ℚ × ℚ × PyStr :=
  match district_coords.find? (fun e => pyContains address e.1) with
  | some (_, lat, lon, name) => (lat, lon, name)
  | none => (37.5665, 126.9780, pstr "서울시청")

/-- One document of a Kakao geocoding response, as the dispatcher reads it:
the parsed `y`/`x` coordinates and the optional display-name field
(`address_name` for the address API, `place_name` for the keyword API). -/
structure KakaoDoc where
  y : ℚ
  x : ℚ
  name : Option PyStr
deriving DecidableEq

/-- The observed outcome of one HTTP call to a Kakao search API:
`none` models an exception raised during the call (connection error,
unparseable body, malformed coordinate string), `some none` a call that
returned without a usable first document (non-200 status or empty
`documents`), and `some (some d)` a 200 response whose first document is
`d`. -/
abbrev KakaoCall := Option (Option KakaoDoc)

/-- `kakao_geocoding` of `main_service.py` (lines 313-357): try the address
API, then the keyword API, then the static district fallback.  An exception
anywhere in the `try` block lands in the same fallback. -/
def kakao_geocoding (addrCall keywordCall : KakaoCall) (address : PyStr) :
    ℚ × ℚ × PyStr :=
  match addrCall with
  | none => get_default_coordinates_by_district address
  | some (some doc) => (doc.y, doc.x, doc.name.getD address)
  | some none =>
    match keywordCall with
    | none => get_default_coordinates_by_district address
    | some (some doc) => (doc.y, doc.x, doc.name.getD address)
    | some none => get_default_coordinates_by_district address

/-- The first document of a Kakao address-search response as read by
`extract_district_from_kakao_geocoding`: the `region_2depth_name` fields of
the optional `address` and `road_address` objects. -/
structure KakaoAddrDoc where
  region2_addr : Option PyStr
  region2_road : Option PyStr
deriving DecidableEq

/-- Observed outcome of the address-API call made by
`extract_district_from_kakao_geocoding`: `none` for an exception,
`some none` for no usable first document, `some (some d)` for a document. -/
abbrev ExtractCall := Option (Option KakaoAddrDoc)

/-- Textual fallback of `extract_district_from_kakao_geocoding`
(`main_service.py` lines 392-396 and 404-407): the first
whitespace-separated token of the address ending in `구`. -/
def district_from_text (address : PyStr) : Option PyStr :=
  (pySplit address).find? (fun part => pyEndsWith part (pstr "구"))

/-- A `region_2depth_name` field is used when it is present, non-empty and
ends in `구` (`main_service.py` lines 378-379 and 386-387). -/
def usable_region2 (r : Option PyStr) : Option PyStr :=
  match r with
  | some d => if d ≠ [] ∧ pyEndsWith d (pstr "구") then some d else none
  | none => none

/-- `extract_district_from_kakao_geocoding` (`main_service.py` lines
359-408): prefer the district named by the address API (lot-number address
first, then road address); on API failure, exception, or unusable fields,
fall back to the textual `…구` token. -/
def extract_district_from_kakao_geocoding (call : ExtractCall)
    (address : PyStr) : Option PyStr :=
  match call with
  | some (some doc) =>
    match usable_region2 doc.region2_addr with
    | some d => some d
    | none =>
      match usable_region2 doc.region2_road with
      | some d => some d
      | none => district_from_text address
  | _ => district_from_text address

/-- The four lifecycle states of the `status` column of the `Parcel` table. -/
inductive ParcelStatus
  | PICKUP_PENDING
  | PICKUP_COMPLETED
  | DELIVERY_PENDING
  | DELIVERY_COMPLETED
deriving DecidableEq

/-- One row of the `Parcel` table, restricted to the columns the embedded
code reads or writes.  Calendar days and instants are abstract counters
(`pickupScheduledDate` a day number, `pickupCompletedAt` an instant). -/
structure ParcelRow where
  id : Nat
  status : ParcelStatus
  recipientAddr : PyStr
  pickupDriverId : Option Nat
  pickupScheduledDate : Option Nat
  pickupCompletedAt : Option Nat
  isNextPickupTarget : Bool
  isDeleted : Bool
deriving DecidableEq

/-- The parcel store. -/
abbrev ParcelDB := List ParcelRow

/-- Guard of every per-id statement: `WHERE id = %s AND isDeleted = 0`. -/
def rowMatches (pid : Nat) (r : ParcelRow) : Bool :=
  r.id = pid ∧ r.isDeleted = false

/-- Embedding of a single autocommit `UPDATE … WHERE id = %s AND
isDeleted = 0 [AND …]` statement: apply `f` to every row satisfying the
`WHERE` clause and report `cursor.rowcount` as pymysql reports it with the
default client flags, i.e. the number of rows whose contents actually
changed. -/
def dbUpdate (db : ParcelDB) (cond : ParcelRow → Bool)
    (f : ParcelRow → ParcelRow) : ParcelDB × Nat :=
  (db.map (fun r => if cond r then f r else r),
   (db.filter (fun r => cond r ∧ f r ≠ r)).length)

/-- `get_parcel_from_db` (`main_service.py` lines 84-125): the first
non-deleted row with the given id (the handlers only consult the driver
column, so the status-string renaming performed there is irrelevant). -/
def get_parcel_from_db (db : ParcelDB) (pid : Nat) : Option ParcelRow :=
  db.find? (rowMatches pid)

/-- `assign_driver_to_parcel_in_db` (`main_service.py` lines 178-199):
`UPDATE Parcel SET pickupDriverId, status='PICKUP_PENDING',
isNextPickupTarget=TRUE, pickupScheduledDate=CURDATE() WHERE id AND NOT
isDeleted`; `today` stands for `CURDATE()`. -/
def assign_driver_to_parcel_in_db (db : ParcelDB) (pid driver today : Nat) :
    ParcelDB × Bool :=
  let (db', n) := dbUpdate db (rowMatches pid) (fun r =>
    { r with pickupDriverId := some driver,
             status := .PICKUP_PENDING,
             isNextPickupTarget := true,
             pickupScheduledDate := some today })
  (db', n > 0)

/-- `assign_driver_to_parcel_for_tomorrow` (`main_service.py` lines
201-242): look the parcel up, resolve its district through the Kakao
address API (outcome `call`), map the district to a pickup driver, and
write the row for the given date with `isNextPickupTarget=FALSE`. -/
def assign_driver_to_parcel_for_tomorrow (db : ParcelDB) (pid : Nat)
    (tomorrow : Nat) (call : ExtractCall) : ParcelDB × Bool :=
  match get_parcel_from_db db pid with
  | none => (db, false)
  | some parcel =>
    match extract_district_from_kakao_geocoding call parcel.recipientAddr with
    | none => (db, false)
    | some district =>
      match DISTRICT_DRIVER_MAPPING.lookup district with
      | none => (db, false)
      | some driver =>
        let (db', n) := dbUpdate db (rowMatches pid) (fun r =>
          { r with pickupDriverId := some driver,
                   status := .PICKUP_PENDING,
                   pickupScheduledDate := some tomorrow,
                   isNextPickupTarget := false })
        (db', n > 0)

/-- `complete_parcel_in_db` (`main_service.py` lines 244-264): `UPDATE
Parcel SET status='PICKUP_COMPLETED', isNextPickupTarget=FALSE,
pickupCompletedAt=NOW() WHERE id = %s AND isDeleted = 0`.  The `WHERE`
clause carries no status guard.  `now` stands for `NOW()`. -/
def complete_parcel_in_db (db : ParcelDB) (pid now : Nat) : ParcelDB × Bool :=
  let (db', n) := dbUpdate db (rowMatches pid) (fun r =>
    { r with status := .PICKUP_COMPLETED,
             isNextPickupTarget := false,
             pickupCompletedAt := some now })
  (db', n > 0)

/-- Responses of `POST /api/pickup/complete`, by HTTP status and body. -/
inductive CompleteResp
  | missingId      -- 400 parcelId is required
  | forbidden      -- 403 권한이 없습니다
  | success        -- 200 success
  | failed         -- 500 Failed to complete pickup
deriving DecidableEq

/-- `complete_pickup` (`main_service.py` lines 996-1024): authorize that the
parcel is assigned to the calling driver, then run the completion
`UPDATE`. -/
def complete_pickup (db : ParcelDB) (driver : Nat) (parcelId : Option Nat)
    (now : Nat) : CompleteResp × ParcelDB :=
  match parcelId with
  | none => (.missingId, db)
  | some pid =>
    if pid = 0 then (.missingId, db) else
    match get_parcel_from_db db pid with
    | none => (.forbidden, db)
    | some parcel =>
      if parcel.pickupDriverId ≠ some driver then (.forbidden, db)
      else
        let (db', ok) := complete_parcel_in_db db pid now
        if ok then (.success, db') else (.failed, db')

/-- Responses of `POST /api/pickup/webhook`, by HTTP status and body. -/
inductive WebhookResp
  | missingId                          -- 400 parcelId is required
  | scheduledTomorrow (date : Nat)     -- 200 scheduled_tomorrow
  | scheduleFailed                     -- 500 Failed to schedule for tomorrow
  | notFound                           -- 404 Parcel not found
  | alreadyProcessed                   -- 200 already_processed
  | noDistrict                         -- 400 Could not determine district
  | noDriver                           -- 500 No driver for district
  | assigned (district : PyStr) (driver : Nat)  -- 200 success
  | assignFailed                       -- 500 Failed to assign driver
deriving DecidableEq

/-- The 12:00 cutoff in minutes after midnight (`PICKUP_CUTOFF_TIME`). -/
def PICKUP_CUTOFF_MINUTE : Nat := 720

/-- The 07:00 route-availability start in minutes (`PICKUP_START_TIME`). -/
def PICKUP_START_MINUTE : Nat := 420

/-- `webhook_new_pickup` (`main_service.py` lines 518-598).  `day` and
`minute` are the local receipt date and time-of-day; `call` is the outcome
of the district-extraction API call; the coordinate geocoding of line 561
only feeds the response body, so its outcome is irrelevant to the returned
status and store and is omitted. -/
def webhook_new_pickup (db : ParcelDB) (day minute : Nat)
    (parcelId : Option Nat) (call : ExtractCall) : WebhookResp × ParcelDB :=
  match parcelId with
  | none => (.missingId, db)
  | some pid =>
    if pid = 0 then (.missingId, db) else
    if minute ≥ PICKUP_CUTOFF_MINUTE then
      let tomorrow := day + 1
      let (db', ok) := assign_driver_to_parcel_for_tomorrow db pid tomorrow call
      if ok then (.scheduledTomorrow tomorrow, db') else (.scheduleFailed, db')
    else
      match get_parcel_from_db db pid with
      | none => (.notFound, db)
      | some parcel =>
        if pyTruthy parcel.pickupDriverId then (.alreadyProcessed, db)
        else
          match extract_district_from_kakao_geocoding call parcel.recipientAddr with
          | none => (.noDistrict, db)
          | some district =>
            match DISTRICT_DRIVER_MAPPING.lookup district with
            | none => (.noDriver, db)
            | some driver =>
              let (db', ok) := assign_driver_to_parcel_in_db db pid driver day
              if ok then (.assigned district driver, db') else (.assignFailed, db')

/-- A latitude/longitude pair as passed between the dispatcher and the
routing engine (display names ride along in the source only for response
bodies and are irrelevant to routing). -/
abbrev Loc := ℚ × ℚ

/-- `HUB_LOCATION` (`main_service.py` line 29 and `delivery_service.py`
line 34): 용산역. -/
def HUB_LOCATION : Loc := (37.5299, 126.9648)

/-- Record of the outbound calls a `/next` handler performed: number of
geocoder calls, number of travel-time-matrix requests, number of TSP-adapter
requests, and the (origin, destination) pair of each turn-by-turn route
request in order. -/
structure Trace where
  geocodes : Nat := 0
  matrixCalls : Nat := 0
  tspCalls : Nat := 0
  routes : List (Loc × Loc) := []
deriving DecidableEq

/-- A routing-engine `/route` answer, abstracted to the one summary field the
dispatcher reads back (`trip.summary.length`); `none` models a failed call
(`get_turn_by_turn_route` returning `None`). -/
structure Trip where
  length : ℚ
deriving DecidableEq

/-- A travel-time matrix as returned by `get_time_distance_matrix`. -/
abbrev TimeMatrix := List (List ℚ)

/-- The observed outcome of one `POST` to the LKH adapter: `none` for a
non-200 response, `some t` for a 200 response whose body's `tour` field is
`t` (itself possibly absent). -/
abbrev LkhResp := Option (Option (List Int))

/-- Status discriminant of a `/next` response body. -/
inductive NextStatus
  | forbidden          -- 403 수거 기사만 접근 가능합니다
  | waiting            -- 200, before start-of-day
  | at_hub             -- 200
  | waiting_for_orders -- 200, pickup only
  | return_to_hub      -- 200
  | ok                 -- 200 success with a next destination
  | server_error       -- 500 Internal server error
deriving DecidableEq

/-- A `/next` response restricted to the fields the specification talks
about; a field is `none` when the corresponding JSON key is absent from
that response shape. -/
structure NextResp where
  status : NextStatus
  is_last : Option Bool := none
  remaining : Option Nat := none
  next_loc : Option Loc := none
  next_parcel : Option Nat := none
deriving DecidableEq

/-- One element of the list `get_driver_parcels_from_db` hands to the pickup
handler (`main_service.py` lines 127-176): the row already filtered by
driver, deletion flag and `pickupScheduledDate <= today`, with `status`
collapsed to pending/completed and `pickupCompletedAt` as an optional
(day, time-of-day) instant. -/
structure PickupItem where
  id : Nat
  isPending : Bool
  recipientAddr : PyStr
  productName : PyStr
  completedAt : Option (Nat × Nat)
deriving DecidableEq

/-- Strict descending comparison of completion instants ((day, time) pairs,
mirroring comparison of their `isoformat` strings). -/
def tsGT (a b : Nat × Nat) : Bool :=
  a.1 > b.1 ∨ (a.1 = b.1 ∧ a.2 > b.2)

/-- The parcel completed today with the greatest completion instant — the
head of `sorted(completed_today, key=pickupCompletedAt, reverse=True)`
(`main_service.py` lines 679-687); ties keep the earlier list element, as
Python's stable sort does. -/
def lastCompletedToday (parcels : List PickupItem) (today : Nat) :
    Option PickupItem :=
  let completed := parcels.filter
    (fun p => ¬p.isPending ∧ (p.completedAt.map Prod.fst = some today))
  completed.foldl (fun acc p =>
    match acc with
    | none => some p
    | some q =>
      if tsGT (p.completedAt.getD (0, 0)) (q.completedAt.getD (0, 0))
      then some p else some q) none

/-- A geocoded pending pickup as built at `main_service.py` lines 774-787. -/
structure GeoStop where
  lat : ℚ
  lon : ℚ
  parcel_id : Nat
deriving DecidableEq

/-- The `current_location` computation of `/pickup/next` (`main_service.py`
lines 670-692), together with the number of geocoder calls it made. -/
def pickupCurrentLocation (parcels : List PickupItem) (today : Nat)
    (hubStatus : Bool) (geocode : PyStr → ℚ × ℚ × PyStr) : Loc × Nat :=
  if hubStatus then (HUB_LOCATION, 0)
  else
    match lastCompletedToday parcels today with
    | some last =>
      let (lat, lon, _) := geocode last.recipientAddr
      ((lat, lon), 1)
    | none => (HUB_LOCATION, 0)

/-- Outcome of the tour-walking block of `/pickup/next` (`main_service.py`
lines 861-875): the pending-stop index selected from the LKH tour, `none`
when control falls through to the first-pending fallback, or a raised
`ValueError` (`.index(0)` on a tour without node 0) that the endpoint's
outer handler turns into a 500. -/
inductive TourPick
  | raised
  | fallthrough
  | stop (idx : Nat)
deriving DecidableEq

/-- The tour-walking block itself: locate node 0 in the tour, take the next
node in tour order (skipping a reappearing 0 once), shift by one to index
the pending list, and bounds-check. -/
def pickFromTour (tour : List Int) (stops : Nat) : TourPick :=
  if tour ≠ [] ∧ tour.length > 1 then
    if (0 : Int) ∈ tour then
      let start_pos := tour.indexOf 0
      let next_pos := (start_pos + 1) % tour.length
      let next_idx := tour.getD next_pos 0
      let next_idx :=
        if next_idx = 0 then tour.getD ((start_pos + 2) % tour.length) 0
        else next_idx
      let pickup_idx : Int := next_idx - 1
      if 0 ≤ pickup_idx ∧ pickup_idx < (stops : Int)
      then .stop pickup_idx.toNat
      else .fallthrough
    else .raised
  else .fallthrough

/-- `get_next_destination`, the `/api/pickup/next` handler (`main_service.py`
lines 637-994).  `minute` is the local time of day in minutes, `today` the
local date; `parcels` is the result of `get_driver_parcels_from_db`;
`geocode`, `matrixOf`, `lkh` and `routeOf` are the observed responses of the
Kakao geocoder, the matrix endpoint, the LKH adapter and the `/route`
endpoint.  Returns the response, the outbound-call trace, and the new
`driver_hub_status[driver_id]`. -/
def get_next_destination (driver_id minute today : Nat)
    (parcels : List PickupItem) (hubStatus : Bool)
    (geocode : PyStr → ℚ × ℚ × PyStr)
    (matrixOf : List Loc → Option TimeMatrix)
    (lkh : TimeMatrix → LkhResp)
    (routeOf : Loc → Loc → Option Trip) : NextResp × Trace × Bool :=
  if driver_id ∉ [1, 2, 3, 4, 5] then
    ({ status := .forbidden }, {}, hubStatus)
  else if minute < PICKUP_START_MINUTE then
    ({ status := .waiting }, {}, hubStatus)
  else
    let pending := parcels.filter (·.isPending)
    let (current, g0) := pickupCurrentLocation parcels today hubStatus geocode
    if pending.isEmpty then
      if hubStatus then
        ({ status := .at_hub, is_last := some true, remaining := some 0 },
         { geocodes := g0 }, hubStatus)
      else if minute < PICKUP_CUTOFF_MINUTE then
        ({ status := .waiting_for_orders, is_last := some false,
           remaining := some 0 }, { geocodes := g0 }, hubStatus)
      else
        let _route := routeOf current HUB_LOCATION
        ({ status := .return_to_hub, is_last := some true,
           remaining := some 0, next_loc := some HUB_LOCATION },
         { geocodes := g0, routes := [(current, HUB_LOCATION)] }, hubStatus)
    else
      let hubStatus' := false
      let locations : List GeoStop := pending.map (fun p =>
        let (lat, lon, _) := geocode p.recipientAddr
        { lat := lat, lon := lon, parcel_id := p.id })
      let g1 := g0 + pending.length
      let respFor (s : GeoStop) (extraMatrix extraTsp : Nat) : NextResp × Trace × Bool :=
        ({ status := .ok, is_last := some false,
           remaining := some pending.length,
           next_loc := some (s.lat, s.lon), next_parcel := some s.parcel_id },
         { geocodes := g1, matrixCalls := extraMatrix, tspCalls := extraTsp,
           routes := [(current, (s.lat, s.lon))] }, hubStatus')
      let errResp (extraTsp : Nat) : NextResp × Trace × Bool :=
        ({ status := .server_error },
         { geocodes := g1, matrixCalls := 1, tspCalls := extraTsp },
         hubStatus')
      let finalFallback (extraMatrix extraTsp : Nat) : NextResp × Trace × Bool :=
        ({ status := .return_to_hub, is_last := some true,
           remaining := some 0, next_loc := some HUB_LOCATION },
         { geocodes := g1, matrixCalls := extraMatrix, tspCalls := extraTsp },
         hubStatus')
      let firstPending (extraMatrix extraTsp : Nat) : NextResp × Trace × Bool :=
        match locations.head? with
        | some s => respFor s extraMatrix extraTsp
        | none => finalFallback extraMatrix extraTsp
      if h1 : locations.length = 1 then
        respFor (locations.get ⟨0, by simp [h1]⟩) 0 0
      else
        -- len(pickup_locations) > 1: matrix + TSP (lines 844-926)
        let all_coords := current :: locations.map (fun l => (l.lat, l.lon))
        match matrixOf all_coords with
        | some m =>
          match lkh m with
          | some (some tour) =>
            match pickFromTour tour locations.length with
            | .raised => errResp 1
            | .stop i =>
              match locations.get? i with
              | some s => respFor s 1 1
              | none => errResp 1
            | .fallthrough => firstPending 1 1
          | some none => firstPending 1 1
          | none => firstPending 1 1
        | none => firstPending 1 0

/-- `DELIVERY_START_TIME` (`delivery_service.py` line 33): 15:00, in minutes
after midnight. -/
def DELIVERY_START_MINUTE : Nat := 900

/-- `get_traffic_weight_by_time` (`delivery_service.py` lines 67-84):
time-of-day congestion multiplier, keyed on the current hour. -/
def get_traffic_weight_by_time (hour : Nat) : ℚ :=
  if 7 ≤ hour ∧ hour ≤ 9 then 1.6
  else if 12 ≤ hour ∧ hour ≤ 13 then 1.3
  else if 18 ≤ hour ∧ hour ≤ 20 then 1.7
  else if 21 ≤ hour ∧ hour ≤ 23 then 1.2
  else if hour ≤ 6 then 0.7
  else 1.0

/-- `get_district_traffic_weight` (`delivery_service.py` lines 86-101):
district congestion multiplier from substring matching on the address. -/
def get_district_traffic_weight (address : PyStr) : ℚ :=
  let complex := [pstr "강남구", pstr "서초구", pstr "종로구", pstr "중구",
                  pstr "마포구", pstr "영등포구"]
  let medium := [pstr "송파구", pstr "강동구", pstr "성동구", pstr "광진구",
                 pstr "용산구", pstr "서대문구"]
  if complex.any (fun d => pyContains address d) then 1.4
  else if medium.any (fun d => pyContains address d) then 1.2
  else 1.0

/-- `apply_traffic_weights_to_matrix` (`delivery_service.py` lines 103-129):
scale every off-diagonal entry by the time-of-day weight times the mean of
the two endpoint district weights.  `addrs` is the `address` field of each
enhanced location (the empty string when absent). -/
def apply_traffic_weights_to_matrix (hour : Nat) (addrs : List PyStr)
    (m : TimeMatrix) : TimeMatrix :=
  let tw := get_traffic_weight_by_time hour
  m.mapIdx (fun i row => row.mapIdx (fun j v =>
    if i = j then v
    else
      let sw := get_district_traffic_weight (addrs.getD i [])
      let ew := get_district_traffic_weight (addrs.getD j [])
      v * (tw * ((sw + ew) / 2))))

/-- The pre-request guard of `get_time_distance_matrix`
(`get_valhalla_matrix.py` lines 35-37): fewer than two locations short-
circuits to `(None, None)` without issuing the HTTP request; otherwise the
request is made and `matrixOf` is its observed time matrix.  Also returns
the number of matrix requests issued. -/
def matrixRequest (matrixOf : List Loc → Option TimeMatrix)
    (coords : List Loc) : Option TimeMatrix × Nat :=
  if coords.length < 2 then (none, 0) else (matrixOf coords, 1)

/-- A location element of the `locations` list of `get_next_delivery`
(`delivery_service.py` lines 887-902): the current position (no parcel
attached) or a geocoded pending delivery. -/
structure DStop where
  lat : ℚ
  lon : ℚ
  delivery_id : Option Nat
deriving DecidableEq

/-- Fallback element used only to express Python list indexing totally; the
callers guarantee the index is in range whenever it is consulted. -/
def dummyDStop : DStop := { lat := 0, lon := 0, delivery_id := none }

/-- Python list indexing `xs[i]`: negative indices count from the end,
anything out of `[-len, len)` raises `IndexError` (`none`). -/
def pyGet (xs : List DStop) (i : Int) : Option DStop :=
  if 0 ≤ i then xs.get? i.toNat
  else if -(xs.length : Int) ≤ i then xs.get? (xs.length - (-i).toNat)
  else none

/-- Result of `calculate_optimal_next_destination`: chosen stop, route
(`none` when no route was requested or it failed), and the `algorithm`
tag. -/
structure CalcResult where
  next : DStop
  route : Option Trip
  algorithm : PyStr
deriving DecidableEq

/-- `calculate_optimal_next_destination` (`delivery_service.py` lines
595-684): build the traffic-weighted time matrix over the locations, post
it to the LKH adapter, pick the first tour node after the head that is not
the current position (defaulting to stop 1), and route to it; on any
failure fall back to the first delivery stop ("nearest"), and on an
`IndexError` from tour-directed indexing return without routing
("fallback").  The caller always passes at least two locations. -/
def calculate_optimal_next_destination (locations : List DStop)
    (current : Loc) (hour : Nat)
    (matrixOf : List Loc → Option TimeMatrix)
    (lkh : TimeMatrix → LkhResp)
    (routeOf : Loc → Loc → Option Trip) : CalcResult × Trace :=
  let location_coords := locations.map (fun l => (l.lat, l.lon))
  let (m?, mc) := matrixRequest matrixOf location_coords
  -- get_enhanced_time_distance_matrix: the coordinate dicts carry no
  -- `address` key, so every district weight is taken at the empty string
  let weighted := m?.map (apply_traffic_weights_to_matrix hour
    (List.replicate locations.length []))
  let nearest (tsp : Nat) : CalcResult × Trace :=
    let next := if locations.length > 1 then locations.getD 1 dummyDStop
                else locations.getD 0 dummyDStop
    ({ next := next, route := routeOf current (next.lat, next.lon),
       algorithm := pstr "nearest" },
     { matrixCalls := mc, tspCalls := tsp,
       routes := [(current, (next.lat, next.lon))] })
  match weighted with
  | none => nearest 0
  | some wm =>
    match lkh wm with
    | none => nearest 1
    | some tour? =>
      match tour? with
      | none => nearest 1
      | some tour =>
        if tour ≠ [] ∧ tour.length > 1 then
          let next_idx? : Option Int :=
            match (tour.drop 1).find? (· ≠ 0) with
            | some i => some i
            | none => if locations.length > 1 then some 1 else none
          match next_idx? with
          | none => nearest 1
          | some idx =>
            match pyGet locations idx with
            | none =>
              -- IndexError: the except-branch returns without routing
              let fb := if locations.length > 1
                        then locations.getD 1 dummyDStop
                        else locations.getD 0 dummyDStop
              ({ next := fb, route := none, algorithm := pstr "fallback" },
               { matrixCalls := mc, tspCalls := 1 })
            | some next =>
              ({ next := next, route := routeOf current (next.lat, next.lon),
                 algorithm := pstr "LKH_TSP" },
               { matrixCalls := mc, tspCalls := 1,
                 routes := [(current, (next.lat, next.lon))] })
        else nearest 1

/-- One element of the pending-delivery list that
`get_real_pending_deliveries` hands to the delivery handler
(`delivery_service.py` lines 230-277). -/
structure DeliveryItem where
  id : Nat
  recipientAddr : PyStr
  productName : PyStr
deriving DecidableEq

/-- `get_next_delivery`, the `/api/delivery/next` handler
(`delivery_service.py` lines 787-960).  `lastCompletedAddr` is the address
of today's most recently completed delivery for this driver as returned by
the `get_current_driver_location` query, when any. -/
def get_next_delivery (minute : Nat)
    (pending : List DeliveryItem) (lastCompletedAddr : Option PyStr)
    (hubStatus : Bool)
    (geocode : PyStr → ℚ × ℚ × PyStr)
    (matrixOf : List Loc → Option TimeMatrix)
    (lkh : TimeMatrix → LkhResp)
    (routeOf : Loc → Loc → Option Trip) : NextResp × Trace × Bool :=
  if minute < DELIVERY_START_MINUTE then
    ({ status := .waiting }, {}, hubStatus)
  else
    -- get_current_driver_location (lines 280-318)
    let (current, g0) : Loc × Nat :=
      if hubStatus then (HUB_LOCATION, 0)
      else
        match lastCompletedAddr with
        | some a => let (lat, lon, _) := geocode a; ((lat, lon), 1)
        | none => (HUB_LOCATION, 0)
    if pending.isEmpty then
      if hubStatus then
        ({ status := .at_hub, is_last := some true, remaining := some 0 },
         { geocodes := g0 }, hubStatus)
      else
        let _route := routeOf current HUB_LOCATION
        ({ status := .return_to_hub, is_last := some true,
           remaining := some 0, next_loc := some HUB_LOCATION },
         { geocodes := g0, routes := [(current, HUB_LOCATION)] }, hubStatus)
    else
      let hubStatus' := false
      let stops : List DStop := pending.map (fun p =>
        let (lat, lon, _) := geocode p.recipientAddr
        { lat := lat, lon := lon, delivery_id := some p.id })
      let locations : List DStop :=
        { lat := current.1, lon := current.2, delivery_id := none } :: stops
      let g1 := g0 + pending.length
      if locations.length > 1 then
        let (res, tr) := calculate_optimal_next_destination locations current
          (minute / 60) matrixOf lkh routeOf
        ({ status := .ok, is_last := some false,
           remaining := some pending.length,
           next_loc := some (res.next.lat, res.next.lon),
           next_parcel := res.next.delivery_id },
         { tr with geocodes := g1 }, hubStatus')
      else
        -- dead single-location fallback (lines 934-956)
        let next := HUB_LOCATION
        let _route := routeOf current next
        ({ status := .ok, is_last := some false,
           remaining := some pending.length, next_loc := some next },
         { geocodes := g1, routes := [(current, next)] }, hubStatus')

/-- Whitespace recognized by Python `str.strip()`. -/
def isPySpace (c : Char) : Bool :=
  c = ' ' ∨ c = '\t' ∨ c = '\n' ∨ c = '\r'

/-- Embedding of Python `s.strip()`. -/
def pyStrip (s : PyStr) : PyStr :=
  ((s.dropWhile isPySpace).reverse.dropWhile isPySpace).reverse

/-- Digit accumulator used by the `int(...)` embedding: `none` as soon as a
non-digit appears. -/
def natFromDigits : PyStr → Option Nat
  | [] => none
  | cs => cs.foldl (fun acc c =>
      acc.bind (fun n =>
        if c.isDigit then some (10 * n + (c.toNat - '0'.toNat)) else none))
      (some 0)

/-- Embedding of Python `int(s)` on an already-stripped string: an optional
sign followed by decimal digits; everything else raises `ValueError`
(`none`). -/
def pyInt : PyStr → Option Int
  | '-' :: rest => (natFromDigits rest).map (fun n => -(n : Int))
  | '+' :: rest => (natFromDigits rest).map (fun n => (n : Int))
  | s => (natFromDigits s).map (fun n => (n : Int))

/-- The tour-file scan of `solve_tsp_with_lkh` (`run_lkh_internal.py` lines
172-181): the lines following the first line that strips to
`TOUR_SECTION`, or `none` when there is no such line. -/
def findTourSection : List PyStr → Option (List PyStr)
  | [] => none
  | l :: rest =>
    if pyStrip l = pstr "TOUR_SECTION" then some rest
    else findTourSection rest

/-- The node-parsing loop of `solve_tsp_with_lkh` (`run_lkh_internal.py`
lines 183-193): read stripped lines until `-1` or `EOF`, converting each
1-based index to 0-based and skipping lines that fail to parse. -/
def parseTourNodes : List PyStr → List Int
  | [] => []
  | l :: rest =>
    let s := pyStrip l
    if s = pstr "-1" ∨ s = pstr "EOF" then []
    else
      match pyInt s with
      | some k => (k - 1) :: parseTourNodes rest
      | none => parseTourNodes rest

/-- The observed outcome of one LKH subprocess invocation: `runFailed`
collapses the executable-missing, non-zero-exit and timeout branches
(`run_lkh_internal.py` lines 139-151); `ran` carries the cost parsed from
standard output when a `Cost… =` line was found and parsed (lines 158-169)
and the lines of the output tour file. -/
inductive LKHRun
  | runFailed
  | ran (stdoutCost : Option Int) (tourFile : List PyStr)
deriving DecidableEq

/-- Numpy index normalization: negative indices count from the end; out of
`[-n, n)` raises `IndexError` (`none`). -/
def npIdx (n : Nat) (i : Int) : Option Nat :=
  if 0 ≤ i ∧ i < (n : Int) then some i.toNat
  else if -(n : Int) ≤ i ∧ i < 0 then some (n - (-i).toNat)
  else none

/-- `time_matrix[i, j]` with numpy indexing semantics. -/
def npGet2 (m : List (List Int)) (i j : Int) : Option Int :=
  (npIdx m.length i).bind (fun i' =>
    (m.get? i').bind (fun row =>
      (npIdx row.length j).bind (fun j' => row.get? j')))

/-- The cost-recomputation loop of `solve_tsp_with_lkh`
(`run_lkh_internal.py` lines 206-213): sum the matrix entries along the
cyclic tour; `none` models an `IndexError` from an out-of-range tour node
escaping the parsing `try` block. -/
def recomputeCost (m : List (List Int)) (tour : List Int) : Option Int :=
  let n := tour.length
  (List.range n).foldl (fun acc i =>
    acc.bind (fun c =>
      match npGet2 m (tour.getD i 0) (tour.getD ((i + 1) % n) 0) with
      | some v => some (c + v)
      | none => none)) (some 0)

/-- Overall outcome of `solve_tsp_with_lkh` as its caller observes it:
`failed` for a `(None, None)` return, `raised` for an exception escaping
the function, `solved` for a `(tour, cost)` return. -/
inductive SolveOutcome
  | raised
  | failed
  | solved (tour : List Int) (cost : Int)
deriving DecidableEq

/-- `solve_tsp_with_lkh` (`run_lkh_internal.py` lines 8-223) after the
subprocess step, with the run outcome made explicit.  The tour-validity
comparison at lines 200-204 only prints a message — the strict
`return None, None` is commented out — so an invalid tour flows through
unchanged.  The parsed stdout cost is used as-is when present; otherwise
the cost is recomputed from the matrix when the tour has full length, and
the `-1.0` sentinel is returned otherwise. -/
def solve_tsp_with_lkh (matrix : List (List Int)) (run : LKHRun) :
    SolveOutcome :=
  let n := matrix.length
  if n = 0 then .solved [] 0
  else if n = 1 then .solved [0] 0
  else
    match run with
    | .runFailed => .failed
    | .ran stdoutCost tourFile =>
      match findTourSection tourFile with
      | none => .failed
      | some tl =>
        let tour := parseTourNodes tl
        if tour = [] then .failed
        else
          let cost0 : Int := stdoutCost.getD (-1)
          if cost0 < 0 ∧ tour.length = n then
            match recomputeCost matrix tour with
            | some c => .solved tour c
            | none => .raised
          else .solved tour cost0

/-- A `POST /solve` body as the adapter reads it: the optional `distances`
and `matrix` fields (`lkh_app.py` lines 27-32). -/
structure SolveRequest where
  distancesField : Option (List (List Int)) := none
  matrixField : Option (List (List Int)) := none
deriving DecidableEq

/-- A `POST /solve` response by HTTP status and body. -/
inductive SolveResp
  | badRequest                                -- 400
  | serverFailure                             -- 500
  | solvedResp (tour : List Int) (tour_length : Int)  -- 200
deriving DecidableEq

/-- `solve_tsp`, the `POST /solve` handler (`lkh_app.py` lines 21-100):
field selection, squareness check, the N≤2 degenerate answers, and the
LKH call with every failure or escaped exception mapped to a 500. -/
def solve_tsp (req : SolveRequest) (run : LKHRun) : SolveResp :=
  let distances? :=
    match req.distancesField with
    | some d => some d
    | none => req.matrixField
  match distances? with
  | none => .badRequest
  | some distances =>
    let n := distances.length
    if n = 0 ∨ distances.any (fun row => row.length ≠ n) then .badRequest
    else if n = 1 then .solvedResp [0] 0
    else if n = 2 then
      .solvedResp [0, 1] ((distances.getD 0 []).getD 1 0)
    else
      match solve_tsp_with_lkh distances run with
      | .failed => .serverFailure
      | .raised => .serverFailure
      | .solved tour cost => .solvedResp tour cost

/-- Tour validity in the sense of the specification: a permutation of
`[0, N)` starting with 0. -/
def validTour (n : Nat) (t : List Int) : Bool :=
  t.length = n ∧ (List.range n).all (fun k => (k : Int) ∈ t) ∧
  t.head? = some (0 : Int)

/-- One non-null source-target cell of a `sources_to_targets` response,
with its optional `time` and `distance` fields. -/
structure MatrixEntry where
  time : Option ℚ
  distance : Option ℚ
deriving DecidableEq

/-- The decoded `sources_to_targets` array: one optional row per source
(`null` rows allowed), each row a list of optional cells (`null` cells for
unreachable pairs; a cell missing a field is handled like `null`). -/
abbrev MatrixRows := List (Option (List (Option MatrixEntry)))

/-- Value pair written for one cell by the parsing loop of
`get_time_distance_matrix` (`get_valhalla_matrix.py` lines 80-89): the
response values when both are present, the large finite penalty
`9999999` otherwise. -/
def fillEntry (e : Option MatrixEntry) : ℚ × ℚ :=
  match e with
  | some en =>
    match en.time, en.distance with
    | some t, some d => (t, d)
    | _, _ => (9999999, 9999999)
  | none => (9999999, 9999999)

/-- `found_routes` of `get_valhalla_matrix.py` lines 75-84: the number of
cells carrying both a time and a distance. -/
def foundRoutes (rows : MatrixRows) : Nat :=
  rows.foldl (fun acc r =>
    acc + (match r with
      | some l => (l.filter (fun e =>
          match e with
          | some en => en.time.isSome ∧ en.distance.isSome
          | none => false)).length
      | none => 0)) 0

/-- The row of the time (first) and distance (second) matrix produced for
source `i` by the fill loop: a `null` row is entirely penalty-filled (lines
90-93), a present row is written cell by cell with positions beyond the
row's own length left at the `-1.0` preallocation value (lines 73-74). -/
def fillRow (n : Nat) (r? : Option (List (Option MatrixEntry)))
    (pick : ℚ × ℚ → ℚ) : List ℚ :=
  match r? with
  | none => List.replicate n 9999999
  | some r => (List.range n).map (fun j =>
      match r.get? j with
      | some e => pick (fillEntry e)
      | none => -1)

/-- The response-parsing half of `get_time_distance_matrix`
(`get_valhalla_matrix.py` lines 72-104): preallocate two `n × n` matrices
of `-1.0`, fill them from the response rows, and return `(None, None)`
when an `IndexError` escapes to the generic handler (more rows or cells
than `n`) or when no route at all was found. -/
def get_time_distance_matrix_parse (n : Nat) (rows : MatrixRows) :
    Option (TimeMatrix × TimeMatrix) :=
  if rows.length > n then none
  else if rows.any (fun r =>
      match r with
      | some l => l.length > n
      | none => false) then none
  else if foundRoutes rows = 0 then none
  else
    some ((List.range n).map (fun i => fillRow n (rows.getD i (some [])) Prod.fst),
          (List.range n).map (fun i => fillRow n (rows.getD i (some [])) Prod.snd))

/-- A routing-engine response forwarded by the matrix proxy, by status and
opaque body. -/
inductive MatrixProxyResult (β : Type)
  | passThrough (status : Nat) (body : β)
  | nameErrorCaught
deriving DecidableEq

/-- The `use_live_traffic` extraction shared by `/route` and `/matrix`
(`traffic_proxy.py` lines 453-456): `costing_options.get(costing,
{}).get('use_live_traffic', False)`; an entry's `none` field models an
options object without that key. -/
def use_live_traffic_of (costing : PyStr)
    (costing_options : List (PyStr × Option Bool)) : Bool :=
  match costing_options.lookup costing with
  | some (some b) => b
  | some none => false
  | none => false

/-- `proxy_matrix_endpoint`, the `POST /matrix` handler (`traffic_proxy.py`
lines 446-482).  On a 200 engine response with live traffic requested and
a non-empty speed table, line 470 evaluates `self.apply_traffic_to_matrix`
inside a plain function — `self` is unbound and the method does not exist —
so the raised `NameError` is caught by the handler's `except` and surfaced
as a 500 (`nameErrorCaught`); every other path forwards the engine response
unchanged. -/
def proxy_matrix_endpoint {β : Type} (costing : PyStr)
    (costing_options : List (PyStr × Option Bool)) (trafficCount : Nat)
    (engineStatus : Nat) (engineBody : β) : MatrixProxyResult β :=
  let use_traffic := use_live_traffic_of costing costing_options
  if engineStatus = 200 then
    if use_traffic ∧ trafficCount ≠ 0 then .nameErrorCaught
    else .passThrough 200 engineBody
  else .passThrough engineStatus engineBody

/-- `TrafficProxy.get_default_coordinates_by_district` (`traffic_proxy.py`
lines 359-396), which extends the shared district table with the
confidence values 0.5 (district hit) and 0.1 (City-Hall fallback). -/
def proxy_default_coordinates_by_district (address : PyStr) :
    ℚ × ℚ × PyStr × ℚ :=
  match district_coords.find? (fun e => pyContains address e.1) with
  | some (_, lat, lon, name) => (lat, lon, name, 0.5)
  | none => (37.5665, 126.9780, pstr "서울시청", 0.1)

/-- `TrafficProxy.kakao_geocoding` (`traffic_proxy.py` lines 313-357):
like the dispatcher's geocoder but additionally reporting a confidence of
0.95 for an address-API hit and 0.85 for a keyword-API hit. -/
def proxy_kakao_geocoding (addrCall keywordCall : KakaoCall)
    (address : PyStr) : ℚ × ℚ × PyStr × ℚ :=
  match addrCall with
  | none => proxy_default_coordinates_by_district address
  | some (some doc) => (doc.y, doc.x, doc.name.getD address, 0.95)
  | some none =>
    match keywordCall with
    | none => proxy_default_coordinates_by_district address
    | some (some doc) => (doc.y, doc.x, doc.name.getD address, 0.85)
    | some none => proxy_default_coordinates_by_district address

/-- A `GET /search` response: the 400 for a missing/empty `text` parameter,
or the single feature with `coordinates:[lon,lat]`, `display_name` and
`confidence`. -/
inductive SearchResp
  | badRequest
  | feature (lon lat : ℚ) (display_name : PyStr) (confidence : ℚ)
deriving DecidableEq

/-- `kakao_geocoding_search`, the `GET /search` handler
(`traffic_proxy.py` lines 528-578). -/
def kakao_geocoding_search (text : PyStr)
    (addrCall keywordCall : KakaoCall) : SearchResp :=
  if text = [] then .badRequest
  else
    let (lat, lon, name, conf) := proxy_kakao_geocoding addrCall keywordCall text
    .feature lon lat name conf

/-- Rows of the updated table that satisfy a condition are images under the
update function of old rows satisfying it. -/
theorem dbUpdate_mem (db : ParcelDB) (cond : ParcelRow → Bool)
    (f : ParcelRow → ParcelRow) (row : ParcelRow)
    (h : row ∈ (dbUpdate db cond f).1) (hc : cond row = true) :
    ∃ r0, r0 ∈ db ∧ cond r0 = true ∧ row = f r0 := by
  rcases List.mem_map.mp h with ⟨r0, hr0, heq⟩
  by_cases h0 : cond r0
  · exact ⟨r0, hr0, h0, by simp [h0] at heq; exact heq.symm⟩
  · rw [if_neg h0] at heq
    rw [← heq] at hc
    exact absurd hc (by simp [h0])

/-- A successful `assign_driver_to_parcel_for_tomorrow` leaves every
non-deleted row with the parcel's id carrying the given scheduled date. -/
theorem assign_tomorrow_sets_date (db db1 : ParcelDB) (pid t : Nat)
    (call : ExtractCall)
    (h : assign_driver_to_parcel_for_tomorrow db pid t call = (db1, true))
    (row : ParcelRow) (hrow : row ∈ db1) (hr : rowMatches pid row = true) :
    row.pickupScheduledDate = some t := by
  unfold assign_driver_to_parcel_for_tomorrow at h
  split at h
  · simp at h
  split at h
  · simp at h
  split at h
  · simp at h
  simp only [dbUpdate] at h
  rcases Prod.mk.injEq .. ▸ h with ⟨hdb, -⟩
  rw [← hdb] at hrow
  rcases dbUpdate_mem db (rowMatches pid) _ row hrow hr with ⟨r0, -, -, heq⟩
  rw [heq]

/-- A successful `assign_driver_to_parcel_in_db` leaves every non-deleted
row with the parcel's id carrying today's date. -/
theorem assign_today_sets_date (db db1 : ParcelDB) (pid driver today : Nat)
    (ok : Bool)
    (h : assign_driver_to_parcel_in_db db pid driver today = (db1, ok))
    (row : ParcelRow) (hrow : row ∈ db1) (hr : rowMatches pid row = true) :
    row.pickupScheduledDate = some today := by
  unfold assign_driver_to_parcel_in_db at h
  simp only [dbUpdate] at h
  rcases Prod.mk.injEq .. ▸ h with ⟨hdb, -⟩
  rw [← hdb] at hrow
  rcases dbUpdate_mem db (rowMatches pid) _ row hrow hr with ⟨r0, -, -, heq⟩
  rw [heq]

/-- A concrete non-deleted pending parcel assigned to pickup driver 5,
used as the evaluation point of several claims. -/
def examplePendingParcel : ParcelRow :=
  { id := 101, status := .PICKUP_PENDING,
    recipientAddr := pstr "서울 강남구 테헤란로 152",
    pickupDriverId := some 5, pickupScheduledDate := some 0,
    pickupCompletedAt := none, isNextPickupTarget := true,
    isDeleted := false }

/-- C1: the `UPDATE` issued by `/pickup/complete` carries no
`status = 'PICKUP_PENDING'` guard (`complete_parcel_in_db`,
`main_service.py` lines 249-255), so a second call by the assigned driver
after a successful completion is NOT rejected with a 4xx: it returns 200
`success` again and re-stamps `pickupCompletedAt`, mutating the row.  This
evaluation exhibits the divergence from the claimed state-guard behavior
(the delivery-side mirror `complete_delivery_in_db` does carry the
guard). -/
theorem complete_pickup_second_call_succeeds_and_mutates :
    (complete_pickup [examplePendingParcel] 5 (some 101) 1000).1 =
      CompleteResp.success ∧
    ((complete_pickup [examplePendingParcel] 5 (some 101) 1000).2.map
      (·.status) = [ParcelStatus.PICKUP_COMPLETED]) ∧
    (complete_pickup
      (complete_pickup [examplePendingParcel] 5 (some 101) 1000).2
      5 (some 101) 1001).1 = CompleteResp.success ∧
    (complete_pickup
      (complete_pickup [examplePendingParcel] 5 (some 101) 1000).2
      5 (some 101) 1001).2 ≠
      (complete_pickup [examplePendingParcel] 5 (some 101) 1000).2 ∧
    ((complete_pickup
      (complete_pickup [examplePendingParcel] 5 (some 101) 1000).2
      5 (some 101) 1001).2.map (·.pickupCompletedAt) = [some 1001]) := by
  decide

/-- C3 (counterexample): at the 12:00 cutoff the webhook handler checks the
cutoff BEFORE the already-assigned check, so a parcel that already has a
pickup driver is re-assigned for tomorrow — the call returns
`scheduled_tomorrow`, not `already_processed`, and mutates the row. -/
theorem webhook_after_cutoff_not_idempotent :
    (webhook_new_pickup [examplePendingParcel] 0 720 (some 101)
      (some none)).1 = WebhookResp.scheduledTomorrow 1 ∧
    (webhook_new_pickup [examplePendingParcel] 0 720 (some 101)
      (some none)).2 ≠ [examplePendingParcel] := by
  decide

/-- C3 (amended): the pickup webhook is idempotent for calls received
strictly before 12:00 local time: if the parcel already has a pickup driver
it returns `already_processed` and leaves the store untouched.  (At or
after 12:00 the already-assigned check is skipped; see the
counterexample.) -/
theorem webhook_idempotent_before_cutoff (db : ParcelDB)
    (day minute pid : Nat) (call : ExtractCall) (parcel : ParcelRow)
    (hmin : minute < PICKUP_CUTOFF_MINUTE) (hpid : pid ≠ 0)
    (hfind : get_parcel_from_db db pid = some parcel)
    (hdrv : pyTruthy parcel.pickupDriverId = true) :
    webhook_new_pickup db day minute (some pid) call =
      (WebhookResp.alreadyProcessed, db) := by
  simp only [webhook_new_pickup]
  rw [if_neg hpid, if_neg (Nat.not_le.mpr hmin), hfind]
  simp only []
  rw [if_pos hdrv]

/-- Witness for C3's amended theorem at a concrete store and clock. -/
theorem webhook_idempotent_before_cutoff_witness :
    webhook_new_pickup [examplePendingParcel] 0 719 (some 101) (some none) =
      (WebhookResp.alreadyProcessed, [examplePendingParcel]) :=
  webhook_idempotent_before_cutoff [examplePendingParcel] 0 719 101
    (some none) examplePendingParcel (by decide) (by decide) (by decide)
    (by decide)

/-- C4: whenever a pickup webhook results in an assignment, the stored
`pickupScheduledDate` follows the 12:00 cutoff: a `scheduled_tomorrow`
response implies the receipt minute was at or after the cutoff (12:00:00
itself already counts as tomorrow, since the code tests `>=`) and every
matching row stores `date(t)+1`; a `success` response implies the receipt
minute was before the cutoff and every matching row stores `date(t)`. -/
theorem webhook_scheduled_date_cutoff (db : ParcelDB) (day minute pid : Nat)
    (call : ExtractCall) :
    (∀ d, (webhook_new_pickup db day minute (some pid) call).1 = .scheduledTomorrow d →
      PICKUP_CUTOFF_MINUTE ≤ minute ∧ d = day + 1 ∧
      ∀ row ∈ (webhook_new_pickup db day minute (some pid) call).2,
        rowMatches pid row = true → row.pickupScheduledDate = some (day + 1)) ∧
    (∀ district driver,
      (webhook_new_pickup db day minute (some pid) call).1 = .assigned district driver →
      minute < PICKUP_CUTOFF_MINUTE ∧
      ∀ row ∈ (webhook_new_pickup db day minute (some pid) call).2,
        rowMatches pid row = true → row.pickupScheduledDate = some day) := by
  rcases hw : webhook_new_pickup db day minute (some pid) call with ⟨r, db'⟩
  simp only [webhook_new_pickup] at hw
  by_cases hpid : pid = 0
  · rw [if_pos hpid] at hw
    injection hw with h1 h2
    subst h1; subst h2
    simp
  rw [if_neg hpid] at hw
  by_cases hcut : minute ≥ PICKUP_CUTOFF_MINUTE
  · rw [if_pos hcut] at hw
    rcases hassign : assign_driver_to_parcel_for_tomorrow db pid (day + 1) call
      with ⟨dbx, okx⟩
    simp only [hassign] at hw
    cases okx
    · simp only [Bool.false_eq_true, if_false] at hw
      injection hw with h1 h2
      subst h1; subst h2
      simp
    · simp only [if_pos] at hw
      injection hw with h1 h2
      subst h1; subst h2
      constructor
      · intro d hd
        have hday : day + 1 = d := by
          injection hd
        refine ⟨hcut, hday.symm, ?_⟩
        intro row hrow hr
        exact assign_tomorrow_sets_date db dbx pid (day + 1) call hassign row hrow hr
      · intro district driver hd
        cases hd
  · rw [if_neg hcut] at hw
    rcases hfind : get_parcel_from_db db pid with _ | parcel
    · rw [hfind] at hw
      injection hw with h1 h2
      subst h1; subst h2
      simp
    rw [hfind] at hw
    simp only [] at hw
    by_cases htr : pyTruthy parcel.pickupDriverId = true
    · rw [if_pos htr] at hw
      injection hw with h1 h2
      subst h1; subst h2
      simp
    rw [if_neg htr] at hw
    rcases hdist : extract_district_from_kakao_geocoding call parcel.recipientAddr
      with _ | district
    · rw [hdist] at hw
      injection hw with h1 h2
      subst h1; subst h2
      simp
    rw [hdist] at hw
    simp only [] at hw
    rcases hdrv : DISTRICT_DRIVER_MAPPING.lookup district with _ | driver
    · rw [hdrv] at hw
      injection hw with h1 h2
      subst h1; subst h2
      simp
    rw [hdrv] at hw
    simp only [] at hw
    rcases hassign : assign_driver_to_parcel_in_db db pid driver day with ⟨dbx, okx⟩
    simp only [hassign] at hw
    cases okx
    · simp only [Bool.false_eq_true, if_false] at hw
      injection hw with h1 h2
      subst h1; subst h2
      simp
    · simp only [if_pos] at hw
      injection hw with h1 h2
      subst h1; subst h2
      constructor
      · intro d hd
        cases hd
      · intro district' driver' hd
        refine ⟨by omega, ?_⟩
        intro row hrow hr
        exact assign_today_sets_date db dbx pid driver day true hassign row hrow hr

/-- The example parcel before any driver assignment. -/
def exampleFreshParcel : ParcelRow :=
  { examplePendingParcel with pickupDriverId := none,
                              pickupScheduledDate := none }

/-- Witness for C4 on both sides of the cutoff: an after-cutoff call stores
tomorrow's date, a before-cutoff call on an unassigned parcel stores
today's date. -/
theorem webhook_scheduled_date_cutoff_witness :
    ((webhook_new_pickup [examplePendingParcel] 0 720 (some 101)
        (some none)).1 = WebhookResp.scheduledTomorrow 1 ∧
      ∀ row ∈ (webhook_new_pickup [examplePendingParcel] 0 720 (some 101)
        (some none)).2,
        rowMatches 101 row = true → row.pickupScheduledDate = some 1) ∧
    ((webhook_new_pickup [exampleFreshParcel] 3 600 (some 101)
        (some none)).1 = WebhookResp.assigned (pstr "강남구") 5 ∧
      ∀ row ∈ (webhook_new_pickup [exampleFreshParcel] 3 600 (some 101)
        (some none)).2,
        rowMatches 101 row = true → row.pickupScheduledDate = some 3) :=
  ⟨⟨by decide, fun row hrow hr =>
      ((webhook_scheduled_date_cutoff [examplePendingParcel] 0 720 101
        (some none)).1 1 (by decide)).2.2 row hrow hr⟩,
   ⟨by decide, fun row hrow hr =>
      ((webhook_scheduled_date_cutoff [exampleFreshParcel] 3 600 101
        (some none)).2 (pstr "강남구") 5 (by decide)).2 row hrow hr⟩⟩

/-- C5: a `/pickup/next` call at or after 07:00 by a pickup driver with no
pending parcels answers `at_hub` when the in-memory hub flag is set;
otherwise `waiting_for_orders` before 12:00 with no route, matrix or TSP
request; otherwise `return_to_hub` with `is_last = true`, the hub as next
destination and exactly one route request ending at the hub. -/
theorem pickup_next_zero_pending
    (driver minute today : Nat) (parcels : List PickupItem) (hub : Bool)
    (geocode : PyStr → ℚ × ℚ × PyStr)
    (matrixOf : List Loc → Option TimeMatrix) (lkh : TimeMatrix → LkhResp)
    (routeOf : Loc → Loc → Option Trip)
    (hdrv : driver ∈ [1, 2, 3, 4, 5])
    (hmin : PICKUP_START_MINUTE ≤ minute)
    (hpend : parcels.filter (·.isPending) = []) :
    (hub = true →
      (get_next_destination driver minute today parcels hub geocode matrixOf
        lkh routeOf).1.status = NextStatus.at_hub) ∧
    (hub = false → minute < PICKUP_CUTOFF_MINUTE →
      (get_next_destination driver minute today parcels hub geocode matrixOf
        lkh routeOf).1.status = NextStatus.waiting_for_orders ∧
      (get_next_destination driver minute today parcels hub geocode matrixOf
        lkh routeOf).2.1.routes = [] ∧
      (get_next_destination driver minute today parcels hub geocode matrixOf
        lkh routeOf).2.1.matrixCalls = 0 ∧
      (get_next_destination driver minute today parcels hub geocode matrixOf
        lkh routeOf).2.1.tspCalls = 0) ∧
    (hub = false → PICKUP_CUTOFF_MINUTE ≤ minute →
      (get_next_destination driver minute today parcels hub geocode matrixOf
        lkh routeOf).1.status = NextStatus.return_to_hub ∧
      (get_next_destination driver minute today parcels hub geocode matrixOf
        lkh routeOf).1.is_last = some true ∧
      (get_next_destination driver minute today parcels hub geocode matrixOf
        lkh routeOf).1.next_loc = some HUB_LOCATION ∧
      ∃ c, (get_next_destination driver minute today parcels hub geocode
        matrixOf lkh routeOf).2.1.routes = [(c, HUB_LOCATION)]) := by
  have hnot : ¬ driver ∉ [1, 2, 3, 4, 5] := fun hn => hn hdrv
  simp only [get_next_destination, if_neg hnot, if_neg (Nat.not_lt.mpr hmin),
    hpend, List.isEmpty_nil, if_true]
  refine ⟨?_, ?_, ?_⟩
  · intro hhub
    subst hhub
    simp
  · intro hhub hlt
    subst hhub
    simp [hlt]
  · intro hhub hge
    subst hhub
    simp [Nat.not_lt.mpr hge]

/-- The delivery-side TSP helper always issues the matrix request when
given at least two locations, whatever the oracles answer. -/
theorem calc_always_requests_matrix (locations : List DStop) (current : Loc)
    (hour : Nat) (matrixOf : List Loc → Option TimeMatrix)
    (lkh : TimeMatrix → LkhResp) (routeOf : Loc → Loc → Option Trip)
    (h2 : 2 ≤ locations.length) :
    (calculate_optimal_next_destination locations current hour matrixOf lkh
      routeOf).2.matrixCalls = 1 := by
  unfold calculate_optimal_next_destination
  have hlen : ¬ (locations.map (fun l => (l.lat, l.lon))).length < 2 := by
    simp only [List.length_map]
    omega
  simp only [matrixRequest, if_neg hlen]
  split <;> first
    | rfl
    | (split <;> first
        | rfl
        | (split <;> first
            | rfl
            | (split <;> first
                | rfl
                | (split <;> first
                    | rfl
                    | (split <;> rfl)))))

/-- With exactly one pending pickup, `/pickup/next` answers 200 with no
matrix request and no TSP request, and one direct route request from the
current location to the stop. -/
theorem pickup_single_pending_direct (driver minute today : Nat)
    (parcels : List PickupItem) (hub : Bool)
    (geocode : PyStr → ℚ × ℚ × PyStr)
    (matrixOf : List Loc → Option TimeMatrix) (lkh : TimeMatrix → LkhResp)
    (routeOf : Loc → Loc → Option Trip) (p : PickupItem)
    (hdrv : driver ∈ [1, 2, 3, 4, 5])
    (hmin : PICKUP_START_MINUTE ≤ minute)
    (hpend : parcels.filter (·.isPending) = [p]) :
    (get_next_destination driver minute today parcels hub geocode matrixOf
      lkh routeOf).1.status = NextStatus.ok ∧
    (get_next_destination driver minute today parcels hub geocode matrixOf
      lkh routeOf).2.1.matrixCalls = 0 ∧
    (get_next_destination driver minute today parcels hub geocode matrixOf
      lkh routeOf).2.1.tspCalls = 0 ∧
    (get_next_destination driver minute today parcels hub geocode matrixOf
      lkh routeOf).2.1.routes =
      [((pickupCurrentLocation parcels today hub geocode).1,
        ((geocode p.recipientAddr).1, (geocode p.recipientAddr).2.1))] := by
  have hnot : ¬ driver ∉ [1, 2, 3, 4, 5] := fun hn => hn hdrv
  simp only [get_next_destination, if_neg hnot, if_neg (Nat.not_lt.mpr hmin),
    hpend]
  simp [hpend]

/-- With exactly one pending delivery, `/delivery/next` still issues the
travel-time-matrix request. -/
theorem delivery_single_pending_requests_matrix (minute : Nat)
    (pending : List DeliveryItem) (lastCompletedAddr : Option PyStr)
    (hub : Bool) (geocode : PyStr → ℚ × ℚ × PyStr)
    (matrixOf : List Loc → Option TimeMatrix) (lkh : TimeMatrix → LkhResp)
    (routeOf : Loc → Loc → Option Trip) (q : DeliveryItem)
    (hmin : DELIVERY_START_MINUTE ≤ minute)
    (hpend : pending = [q]) :
    (get_next_delivery minute pending lastCompletedAddr hub geocode matrixOf
      lkh routeOf).2.1.matrixCalls = 1 := by
  subst hpend
  simp only [get_next_delivery, if_neg (Nat.not_lt.mpr hmin)]
  simp [calc_always_requests_matrix]

/-- Witness for C5 at a concrete empty field: before the cutoff the driver
waits for orders without any routing-engine traffic. -/
theorem pickup_next_zero_pending_witness :
    (false = true →
      (get_next_destination 5 700 0 [] false (fun _ => (1, 2, []))
        (fun _ => none) (fun _ => none) (fun _ _ => none)).1.status =
        NextStatus.at_hub) ∧
    (false = false → 700 < PICKUP_CUTOFF_MINUTE →
      (get_next_destination 5 700 0 [] false (fun _ => (1, 2, []))
        (fun _ => none) (fun _ => none) (fun _ _ => none)).1.status =
        NextStatus.waiting_for_orders ∧
      (get_next_destination 5 700 0 [] false (fun _ => (1, 2, []))
        (fun _ => none) (fun _ => none) (fun _ _ => none)).2.1.routes = [] ∧
      (get_next_destination 5 700 0 [] false (fun _ => (1, 2, []))
        (fun _ => none) (fun _ => none) (fun _ _ => none)).2.1.matrixCalls = 0 ∧
      (get_next_destination 5 700 0 [] false (fun _ => (1, 2, []))
        (fun _ => none) (fun _ => none) (fun _ _ => none)).2.1.tspCalls = 0) ∧
    (false = false → PICKUP_CUTOFF_MINUTE ≤ 700 →
      (get_next_destination 5 700 0 [] false (fun _ => (1, 2, []))
        (fun _ => none) (fun _ => none) (fun _ _ => none)).1.status =
        NextStatus.return_to_hub ∧
      (get_next_destination 5 700 0 [] false (fun _ => (1, 2, []))
        (fun _ => none) (fun _ => none) (fun _ _ => none)).1.is_last =
        some true ∧
      (get_next_destination 5 700 0 [] false (fun _ => (1, 2, []))
        (fun _ => none) (fun _ => none) (fun _ _ => none)).1.next_loc =
        some HUB_LOCATION ∧
      ∃ c, (get_next_destination 5 700 0 [] false (fun _ => (1, 2, []))
        (fun _ => none) (fun _ => none) (fun _ _ => none)).2.1.routes =
        [(c, HUB_LOCATION)]) :=
  pickup_next_zero_pending 5 700 0 [] false (fun _ => (1, 2, []))
    (fun _ => none) (fun _ => none) (fun _ _ => none) (by decide) (by decide)
    (by decide)

/-- An example pending pickup item as handed to `/pickup/next`. -/
def examplePickupItem : PickupItem :=
  { id := 7, isPending := true,
    recipientAddr := pstr "서울 강남구 테헤란로 152",
    productName := pstr "텀블러", completedAt := none }

/-- An example pending delivery item as handed to `/delivery/next`. -/
def exampleDeliveryItem : DeliveryItem :=
  { id := 9, recipientAddr := pstr "서울 강남구 테헤란로 152",
    productName := pstr "텀블러" }

/-- C6 (counterexample): called at 15:00 with exactly one pending delivery,
`/delivery/next` does NOT skip the matrix and TSP calls — it issues one
travel-time-matrix request and one TSP-adapter request, refuting the
claim's extension to `/delivery/next`. -/
theorem delivery_next_single_pending_calls_matrix_and_tsp :
    (get_next_delivery 900 [exampleDeliveryItem] none false
      (fun _ => (1, 2, [])) (fun _ => some [[0, 1], [1, 0]])
      (fun _ => some (some [0, 1]))
      (fun _ _ => some ⟨3⟩)).2.1.matrixCalls = 1 ∧
    (get_next_delivery 900 [exampleDeliveryItem] none false
      (fun _ => (1, 2, [])) (fun _ => some [[0, 1], [1, 0]])
      (fun _ => some (some [0, 1]))
      (fun _ _ => some ⟨3⟩)).2.1.tspCalls = 1 := by
  decide

/-- C6 (amended): with exactly one pending stop, `/pickup/next` skips the
travel-time matrix and the TSP adapter entirely and routes directly from
the current location to that stop; `/delivery/next`, whose handler has no
single-stop shortcut, issues the matrix request even then. -/
theorem next_single_pending_skip_only_pickup :
    (∀ (driver minute today : Nat) (parcels : List PickupItem) (hub : Bool)
      (geocode : PyStr → ℚ × ℚ × PyStr)
      (matrixOf : List Loc → Option TimeMatrix) (lkh : TimeMatrix → LkhResp)
      (routeOf : Loc → Loc → Option Trip) (p : PickupItem),
      driver ∈ [1, 2, 3, 4, 5] → PICKUP_START_MINUTE ≤ minute →
      parcels.filter (·.isPending) = [p] →
      (get_next_destination driver minute today parcels hub geocode matrixOf
        lkh routeOf).1.status = NextStatus.ok ∧
      (get_next_destination driver minute today parcels hub geocode matrixOf
        lkh routeOf).2.1.matrixCalls = 0 ∧
      (get_next_destination driver minute today parcels hub geocode matrixOf
        lkh routeOf).2.1.tspCalls = 0 ∧
      (get_next_destination driver minute today parcels hub geocode matrixOf
        lkh routeOf).2.1.routes =
        [((pickupCurrentLocation parcels today hub geocode).1,
          ((geocode p.recipientAddr).1, (geocode p.recipientAddr).2.1))]) ∧
    (∀ (minute : Nat) (pending : List DeliveryItem)
      (lastCompletedAddr : Option PyStr) (hub : Bool)
      (geocode : PyStr → ℚ × ℚ × PyStr)
      (matrixOf : List Loc → Option TimeMatrix) (lkh : TimeMatrix → LkhResp)
      (routeOf : Loc → Loc → Option Trip) (q : DeliveryItem),
      DELIVERY_START_MINUTE ≤ minute → pending = [q] →
      (get_next_delivery minute pending lastCompletedAddr hub geocode
        matrixOf lkh routeOf).2.1.matrixCalls = 1) :=
  ⟨fun driver minute today parcels hub geocode matrixOf lkh routeOf p hdrv
      hmin hpend =>
    pickup_single_pending_direct driver minute today parcels hub geocode
      matrixOf lkh routeOf p hdrv hmin hpend,
   fun minute pending lastCompletedAddr hub geocode matrixOf lkh routeOf q
      hmin hpend =>
    delivery_single_pending_requests_matrix minute pending lastCompletedAddr
      hub geocode matrixOf lkh routeOf q hmin hpend⟩

/-- Witness for C6's amended theorem: a concrete single-stop pickup run
with no matrix and no TSP traffic, and a concrete single-stop delivery run
with one matrix request. -/
theorem next_single_pending_skip_only_pickup_witness :
    ((get_next_destination 5 700 0 [examplePickupItem] false
      (fun _ => (1, 2, [])) (fun _ => some [[0]]) (fun _ => none)
      (fun _ _ => some ⟨3⟩)).2.1.matrixCalls = 0 ∧
     (get_next_destination 5 700 0 [examplePickupItem] false
      (fun _ => (1, 2, [])) (fun _ => some [[0]]) (fun _ => none)
      (fun _ _ => some ⟨3⟩)).2.1.tspCalls = 0) ∧
    (get_next_delivery 900 [exampleDeliveryItem] none false
      (fun _ => (1, 2, [])) (fun _ => none) (fun _ => none)
      (fun _ _ => none)).2.1.matrixCalls = 1 :=
  ⟨⟨(next_single_pending_skip_only_pickup.1 5 700 0 [examplePickupItem]
      false (fun _ => (1, 2, [])) (fun _ => some [[0]]) (fun _ => none)
      (fun _ _ => some ⟨3⟩) examplePickupItem (by decide) (by decide)
      (by decide)).2.1,
    (next_single_pending_skip_only_pickup.1 5 700 0 [examplePickupItem]
      false (fun _ => (1, 2, [])) (fun _ => some [[0]]) (fun _ => none)
      (fun _ _ => some ⟨3⟩) examplePickupItem (by decide) (by decide)
      (by decide)).2.2.1⟩,
   next_single_pending_skip_only_pickup.2 900 [exampleDeliveryItem] none
     false (fun _ => (1, 2, [])) (fun _ => none) (fun _ => none)
     (fun _ _ => none) exampleDeliveryItem (by decide) (by decide)⟩

/-- C2 (counterexample): a parsed 3-node tour `[0, 0, 1]` (from tour-file
body `1 1 2`) is not a permutation of `[0, 3)`, yet the adapter returns it
with HTTP 200 instead of a 5xx — the validity check only logs. -/
theorem solve_tsp_invalid_tour_returned_with_200 :
    solve_tsp { matrixField := some [[0, 1, 2], [1, 0, 1], [2, 1, 0]] }
      (.ran (some 4)
        [pstr "TOUR_SECTION", pstr "1", pstr "1", pstr "2", pstr "-1"]) =
      SolveResp.solvedResp [0, 0, 1] 4 ∧
    validTour 3 [0, 0, 1] = false := by
  decide

/-- C2 (amended): for a square matrix of size at least 3, the adapter
answers 5xx exactly when the LKH run fails, the tour file has no
`TOUR_SECTION`, or no node parses; any non-empty parsed tour is returned
with 200 together with the stdout cost (here taken non-negative so that no
recomputation is attempted) — with no permutation or starts-with-0
requirement. -/
theorem solve_tsp_error_only_on_solver_failure (m : List (List Int))
    (h3 : 3 ≤ m.length)
    (hsq : ∀ row ∈ m, row.length = m.length) :
    (solve_tsp { matrixField := some m } .runFailed =
      SolveResp.serverFailure) ∧
    (∀ c lines, findTourSection lines = none →
      solve_tsp { matrixField := some m } (.ran c lines) =
        SolveResp.serverFailure) ∧
    (∀ c lines tl, findTourSection lines = some tl → parseTourNodes tl = [] →
      solve_tsp { matrixField := some m } (.ran c lines) =
        SolveResp.serverFailure) ∧
    (∀ (c : Int) lines tl, findTourSection lines = some tl →
      parseTourNodes tl ≠ [] → 0 ≤ c →
      solve_tsp { matrixField := some m } (.ran (some c) lines) =
        SolveResp.solvedResp (parseTourNodes tl) c) := by
  have hcond : ¬(m.length = 0 ∨ m.any (fun row => ¬row.length = m.length) = true) := by
    rintro (h0 | hany)
    · omega
    · rcases List.any_eq_true.mp hany with ⟨row, hrow, hne⟩
      exact absurd (hsq row hrow) (by simpa using hne)
  refine ⟨?_, ?_, ?_, ?_⟩
  · simp only [solve_tsp, if_neg hcond, if_neg (by omega : ¬ m.length = 1),
      if_neg (by omega : ¬ m.length = 2), solve_tsp_with_lkh,
      if_neg (by omega : ¬ m.length = 0)]
  · intro c lines hfind
    simp only [solve_tsp, if_neg hcond, if_neg (by omega : ¬ m.length = 1),
      if_neg (by omega : ¬ m.length = 2), solve_tsp_with_lkh,
      if_neg (by omega : ¬ m.length = 0), if_neg (by omega : ¬ m.length = 1),
      hfind]
  · intro c lines tl hfind hempty
    simp only [solve_tsp, if_neg hcond, if_neg (by omega : ¬ m.length = 1),
      if_neg (by omega : ¬ m.length = 2), solve_tsp_with_lkh,
      if_neg (by omega : ¬ m.length = 0), if_neg (by omega : ¬ m.length = 1),
      hfind]
    simp [hempty]
  · intro c lines tl hfind hne hc
    have hnc : ¬(c < 0 ∧ (parseTourNodes tl).length = m.length) :=
      fun h => absurd h.1 (not_lt.mpr hc)
    simp only [solve_tsp, if_neg hcond, if_neg (by omega : ¬ m.length = 1),
      if_neg (by omega : ¬ m.length = 2), solve_tsp_with_lkh,
      if_neg (by omega : ¬ m.length = 0), if_neg (by omega : ¬ m.length = 1),
      hfind, if_neg hne, Option.getD_some, if_neg hnc]

/-- Witness for C2's amended theorem on a concrete 3×3 instance: a failed
run yields a 500 and a parsed tour is passed through with its cost. -/
theorem solve_tsp_error_only_on_solver_failure_witness :
    solve_tsp { matrixField := some [[0, 1, 2], [1, 0, 1], [2, 1, 0]] }
      .runFailed = SolveResp.serverFailure ∧
    solve_tsp { matrixField := some [[0, 1, 2], [1, 0, 1], [2, 1, 0]] }
      (.ran (some 4) [pstr "TOUR_SECTION", pstr "2", pstr "3", pstr "1",
        pstr "-1"]) =
      SolveResp.solvedResp
        (parseTourNodes [pstr "2", pstr "3", pstr "1", pstr "-1"]) 4 :=
  ⟨(solve_tsp_error_only_on_solver_failure
      [[0, 1, 2], [1, 0, 1], [2, 1, 0]] (by decide)
      (by intro row hrow; fin_cases hrow <;> rfl)).1,
   (solve_tsp_error_only_on_solver_failure
      [[0, 1, 2], [1, 0, 1], [2, 1, 0]] (by decide)
      (by intro row hrow; fin_cases hrow <;> rfl)).2.2.2
     4 [pstr "TOUR_SECTION", pstr "2", pstr "3", pstr "1", pstr "-1"]
     [pstr "2", pstr "3", pstr "1", pstr "-1"] (by decide) (by decide)
     (by decide)⟩

/-- C7 (counterexample): `GET /search` with an empty `text` parameter does
fail — it returns 400 with no feature, so the endpoint is not total over
all text inputs. -/
theorem search_empty_text_is_400 :
    kakao_geocoding_search [] (some none) (some none) =
      SearchResp.badRequest := by
  decide

/-- C7 (amended): for every NON-EMPTY text input `/search` returns exactly
one feature, whose confidence is 0.95 for an address-API hit, 0.85 for a
keyword-API hit, 0.5 for a district-centroid fallback and 0.1 for the
City-Hall fallback, with `coordinates = [lon, lat]` in every case. -/
theorem search_nonempty_one_feature (text : PyStr)
    (addrCall keywordCall : KakaoCall) (hne : text ≠ []) :
    (∃ lon lat nm conf, kakao_geocoding_search text addrCall keywordCall =
      SearchResp.feature lon lat nm conf) ∧
    (∀ d, addrCall = some (some d) →
      kakao_geocoding_search text addrCall keywordCall =
        SearchResp.feature d.x d.y (d.name.getD text) 0.95) ∧
    (∀ d, addrCall = some none → keywordCall = some (some d) →
      kakao_geocoding_search text addrCall keywordCall =
        SearchResp.feature d.x d.y (d.name.getD text) 0.85) ∧
    ((addrCall = none ∨ (addrCall = some none ∧
        (keywordCall = none ∨ keywordCall = some none))) →
      (∀ dist lat lon nm,
        district_coords.find? (fun e => pyContains text e.1) =
          some (dist, lat, lon, nm) →
        kakao_geocoding_search text addrCall keywordCall =
          SearchResp.feature lon lat nm 0.5) ∧
      (district_coords.find? (fun e => pyContains text e.1) = none →
        kakao_geocoding_search text addrCall keywordCall =
          SearchResp.feature 126.9780 37.5665 (pstr "서울시청") 0.1)) := by
  have hfall : ∀ h : (addrCall = none ∨ (addrCall = some none ∧
      (keywordCall = none ∨ keywordCall = some none))),
      proxy_kakao_geocoding addrCall keywordCall text =
        proxy_default_coordinates_by_district text := by
    rintro (rfl | ⟨rfl, rfl | rfl⟩) <;> rfl
  refine ⟨?_, ?_, ?_, ?_⟩
  · rcases addrCall with _ | (_ | d)
    · simp only [kakao_geocoding_search, if_neg hne, proxy_kakao_geocoding,
        proxy_default_coordinates_by_district]
      rcases hfind : district_coords.find? (fun e => pyContains text e.1)
        with _ | ⟨dist, lat, lon, nm⟩ <;> exact ⟨_, _, _, _, rfl⟩
    · rcases keywordCall with _ | (_ | d)
      · simp only [kakao_geocoding_search, if_neg hne, proxy_kakao_geocoding,
          proxy_default_coordinates_by_district]
        rcases hfind : district_coords.find? (fun e => pyContains text e.1)
          with _ | ⟨dist, lat, lon, nm⟩ <;> exact ⟨_, _, _, _, rfl⟩
      · simp only [kakao_geocoding_search, if_neg hne, proxy_kakao_geocoding,
          proxy_default_coordinates_by_district]
        rcases hfind : district_coords.find? (fun e => pyContains text e.1)
          with _ | ⟨dist, lat, lon, nm⟩ <;> exact ⟨_, _, _, _, rfl⟩
      · exact ⟨d.x, d.y, d.name.getD text, 0.85, by
          simp only [kakao_geocoding_search, if_neg hne,
            proxy_kakao_geocoding]⟩
    · exact ⟨d.x, d.y, d.name.getD text, 0.95, by
        simp only [kakao_geocoding_search, if_neg hne,
          proxy_kakao_geocoding]⟩
  · rintro d rfl
    simp only [kakao_geocoding_search, if_neg hne, proxy_kakao_geocoding]
  · rintro d rfl rfl
    simp only [kakao_geocoding_search, if_neg hne, proxy_kakao_geocoding]
  · intro h
    constructor
    · intro dist lat lon nm hfind
      simp only [kakao_geocoding_search, if_neg hne, hfall h,
        proxy_default_coordinates_by_district, hfind]
    · intro hfind
      simp only [kakao_geocoding_search, if_neg hne, hfall h,
        proxy_default_coordinates_by_district, hfind]

/-- Witness for C7's amended theorem: a concrete address that misses both
APIs and all district names lands on the City-Hall feature with
confidence 0.1. -/
theorem search_nonempty_one_feature_witness :
    kakao_geocoding_search (pstr "어디인지 모르는 주소") (some none)
      (some none) =
      SearchResp.feature 126.9780 37.5665 (pstr "서울시청") 0.1 :=
  ((search_nonempty_one_feature (pstr "어디인지 모르는 주소") (some none)
      (some none) (by decide)).2.2.2
    (Or.inr ⟨rfl, Or.inr rfl⟩)).2 (by decide)

/-- C8 (counterexample): a `/matrix` request that opts into live traffic
while the speed table is non-empty does NOT get the engine's 200 response
passed through: line 470's `self.apply_traffic_to_matrix` raises a
`NameError` (no `self` in a plain function, and the method does not exist),
which the handler surfaces as a 500. -/
theorem matrix_live_traffic_optin_is_500 :
    proxy_matrix_endpoint (pstr "auto") [(pstr "auto", some true)] 1 200
      (0 : Nat) = MatrixProxyResult.nameErrorCaught ∧
    MatrixProxyResult.nameErrorCaught ≠
      MatrixProxyResult.passThrough 200 (0 : Nat) := by
  decide

/-- C8 (amended): `POST /matrix` forwards the engine's response unchanged
(status and body) for every request EXCEPT when the caller opts into live
traffic while the in-memory speed table is non-empty and the engine
answered 200 — that one combination yields a 5xx from the unbound
`self.apply_traffic_to_matrix` reference instead of a pass-through. -/
theorem matrix_endpoint_passthrough {β : Type} (costing : PyStr)
    (opts : List (PyStr × Option Bool)) (tc status : Nat) (body : β) :
    (¬(use_live_traffic_of costing opts = true ∧ tc ≠ 0) →
      proxy_matrix_endpoint costing opts tc status body =
        MatrixProxyResult.passThrough status body) ∧
    (use_live_traffic_of costing opts = true → tc ≠ 0 → status = 200 →
      proxy_matrix_endpoint costing opts tc status body =
        MatrixProxyResult.nameErrorCaught) := by
  constructor
  · intro hn
    unfold proxy_matrix_endpoint
    by_cases hs : status = 200
    · rw [if_pos hs, if_neg hn, hs]
    · rw [if_neg hs]
  · intro hu ht hs
    unfold proxy_matrix_endpoint
    rw [if_pos hs, if_pos ⟨hu, ht⟩]

/-- Witness for C8's amended theorem: a request without live traffic gets
the engine's 200 body unchanged, and one with live traffic and a non-empty
table gets the 500. -/
theorem matrix_endpoint_passthrough_witness :
    proxy_matrix_endpoint (pstr "auto") [(pstr "auto", some false)] 1 200
      (37 : Nat) = MatrixProxyResult.passThrough 200 (37 : Nat) ∧
    proxy_matrix_endpoint (pstr "auto") [(pstr "auto", some true)] 1 200
      (37 : Nat) = MatrixProxyResult.nameErrorCaught :=
  ⟨(matrix_endpoint_passthrough (pstr "auto") [(pstr "auto", some false)]
      1 200 (37 : Nat)).1 (by decide),
   (matrix_endpoint_passthrough (pstr "auto") [(pstr "auto", some true)]
      1 200 (37 : Nat)).2 (by decide) (by decide) rfl⟩

/-- One filled row equals the clean per-cell map when every index hits. -/
theorem row_fill_map (pick : ℚ × ℚ → ℚ) (l : List (Option MatrixEntry)) :
    (List.range l.length).map (fun j =>
      match l.get? j with
      | some e => pick (fillEntry e)
      | none => (-1 : ℚ)) = l.map (fun e => pick (fillEntry e)) := by
  induction l with
  | nil => rfl
  | cons a l ih =>
    rw [List.length_cons, List.range_succ_eq_map, List.map_cons,
      List.map_map]
    refine congrArg₂ _ rfl ?_
    rw [← ih]
    rfl

/-- The indexed row fill over `range rows.length` equals the direct map
over the rows. -/
theorem rows_fill_map (n : Nat) (pick : ℚ × ℚ → ℚ) (rows : MatrixRows) :
    (List.range rows.length).map
      (fun i => fillRow n (rows.getD i (some [])) pick) =
      rows.map (fun r? => fillRow n r? pick) := by
  induction rows with
  | nil => rfl
  | cons a l ih =>
    rw [List.length_cons, List.range_succ_eq_map, List.map_cons,
      List.map_map]
    refine congrArg₂ _ rfl ?_
    rw [← ih]
    rfl

/-- A response row that is present and carries exactly `n` cells. -/
def rowFull (n : Nat) : Option (List (Option MatrixEntry)) → Bool
  | some l => l.length = n
  | none => false

/-- C9: for an `n × n` `sources_to_targets` response in which some cells
are `null` (or missing a field), the matrix builder returns a complete
`n × n` pair of matrices in which exactly those cells hold the finite
sentinel `9999999` and every routed cell holds its response value —
provided at least one pair has a route (otherwise the builder reports
failure).  No cell is left at the `-1.0` preallocation value. -/
theorem matrix_parse_fills_nulls (n : Nat) (rows : MatrixRows)
    (hlen : rows.length = n) (hrows : rows.all (rowFull n) = true)
    (hfound : foundRoutes rows ≠ 0) :
    get_time_distance_matrix_parse n rows =
      some (rows.map (fun r? => (r?.getD []).map (fun e => (fillEntry e).1)),
            rows.map (fun r? => (r?.getD []).map (fun e => (fillEntry e).2))) ∧
    (rows.map (fun r? => (r?.getD []).map (fun e => (fillEntry e).1))).length
      = n ∧
    ∀ row ∈ rows.map (fun r? => (r?.getD []).map (fun e => (fillEntry e).1)),
      row.length = n := by
  have hfull : ∀ r? ∈ rows, ∃ l, r? = some l ∧ l.length = n := by
    intro r? hr
    have := List.all_eq_true.mp hrows r? hr
    cases r? with
    | none => simp [rowFull] at this
    | some l => exact ⟨l, rfl, by simpa [rowFull] using this⟩
  have hfillRow : ∀ pick, rows.map (fun r? => fillRow n r? pick) =
      rows.map (fun r? => (r?.getD []).map (fun e => pick (fillEntry e))) := by
    intro pick
    refine List.map_congr_left ?_
    intro r? hr
    rcases hfull r? hr with ⟨l, rfl, hl⟩
    simp only [fillRow, Option.getD_some]
    rw [← hl]
    exact row_fill_map pick l
  have h1 : ¬ rows.length > n := by omega
  have h2 : ¬ (rows.any (fun r =>
      match r with
      | some l => l.length > n
      | none => false)) = true := by
    intro hany
    rcases List.any_eq_true.mp hany with ⟨r?, hr, hbad⟩
    rcases hfull r? hr with ⟨l, rfl, hl⟩
    have : l.length > n := by simpa using hbad
    omega
  have hrange : List.range n = List.range rows.length := by rw [hlen]
  refine ⟨?_, by simp [hlen], ?_⟩
  · unfold get_time_distance_matrix_parse
    rw [if_neg h1, if_neg h2, if_neg hfound, hrange, rows_fill_map,
      rows_fill_map, hfillRow Prod.fst, hfillRow Prod.snd]
  · intro row hrow
    rcases List.mem_map.mp hrow with ⟨r?, hr, hrw⟩
    rcases hfull r? hr with ⟨l, rfl, hl⟩
    rw [← hrw]
    simpa using hl

/-- Witness for C9 on a concrete 2×2 response with two `null` cells: both
are filled with `9999999` and the routed cells keep their values. -/
theorem matrix_parse_fills_nulls_witness :
    get_time_distance_matrix_parse 2
      [some [some { time := some 10, distance := some 1 }, none],
       some [none, some { time := some 0, distance := some 0 }]] =
      some ([[10, 9999999], [9999999, 0]], [[1, 9999999], [9999999, 0]]) :=
  (matrix_parse_fills_nulls 2
    [some [some { time := some 10, distance := some 1 }, none],
     some [none, some { time := some 0, distance := some 0 }]]
    (by decide) (by decide) (by decide)).1

/-- C10: the dispatcher's geocoder is total — every call returns some
(lat, lon, name) triple, exceptions included, because every failure path
lands in the district fallback — and when neither search API yields a
usable document and none of the 25 district names occurs in the address,
the result is exactly the Seoul City Hall triple. -/
theorem kakao_geocoding_total_cityhall_fallback
    (addrCall keywordCall : KakaoCall) (address : PyStr) :
    (∃ lat lon name, kakao_geocoding addrCall keywordCall address =
      (lat, lon, name)) ∧
    ((∀ d, addrCall ≠ some (some d)) → (∀ d, keywordCall ≠ some (some d)) →
      (∀ e ∈ district_coords, pyContains address e.1 = false) →
      kakao_geocoding addrCall keywordCall address =
        (37.5665, 126.9780, pstr "서울시청")) := by
  constructor
  · exact ⟨(kakao_geocoding addrCall keywordCall address).1,
      (kakao_geocoding addrCall keywordCall address).2.1,
      (kakao_geocoding addrCall keywordCall address).2.2, rfl⟩
  · intro h1 h2 h3
    have hfall : kakao_geocoding addrCall keywordCall address =
        get_default_coordinates_by_district address := by
      rcases addrCall with _ | (_ | d)
      · rfl
      · rcases keywordCall with _ | (_ | d)
        · rfl
        · rfl
        · exact absurd rfl (h2 d)
      · exact absurd rfl (h1 d)
    rw [hfall]
    unfold get_default_coordinates_by_district
    rw [List.find?_eq_none.mpr (by intro e he; simp [h3 e he])]

/-- Witness for C10: a concrete address naming no district, with both API
calls failing, geocodes to Seoul City Hall. -/
theorem kakao_geocoding_total_cityhall_fallback_witness :
    kakao_geocoding (some none) (some none) (pstr "어디인지 모르는 주소") =
      (37.5665, 126.9780, pstr "서울시청") :=
  (kakao_geocoding_total_cityhall_fallback (some none) (some none)
    (pstr "어디인지 모르는 주소")).2
    (by intro d h; cases h) (by intro d h; cases h) (by decide)
